import Mathlib

/-!
Verification of the Evo-Walk 2D rigid-body physics engine core.

This file gives a shallow embedding, over the rational numbers, of the parts
of the engine that the verified properties concern:

- the Verlet integrator `Body.update` (src/engine/body/body.py),
- the static freeze and restore `Body.set_static` (src/engine/body/body.py),
- the sleep state setter `Sleeping.set_sleeping` (src/engine/core/sleeping.py),
- the position projection `Resolver.post_solve_position` and the velocity
  solver `Resolver.solve_velocity` (src/engine/collision/resolver.py),
- the geometry kernel: signed area, centroid, inertia and containment
  (src/engine/geometry/vertices.py), edge-normal axes with slope-key
  deduplication (src/engine/geometry/axes.py),
- the SAT narrowphase `Collision.collides` (src/engine/collision/collision.py),
- the pair cache `Pairs.update` (src/engine/collision/pairs.py).

Numbers are modelled as rationals.  The Python source computes with binary
floats; every property proved here is about the exact-arithmetic content of
the algorithms.  Division is total on the rationals (x / 0 = 0); wherever the
source can raise ZeroDivisionError this is noted and, where it matters for a
property (Vertices.centre), modelled explicitly with an Option.
-/

/-- 2D vector, modelling the `{x, y}` dicts of src/engine/geometry/vector.py. -/
structure Vec where
  x : ℚ
  y : ℚ
deriving DecidableEq, Repr

namespace Vec

/-- Vector.add from src/engine/geometry/vector.py. -/
def add (a b : Vec) : Vec := ⟨a.x + b.x, a.y + b.y⟩

/-- Vector.sub from src/engine/geometry/vector.py. -/
def sub (a b : Vec) : Vec := ⟨a.x - b.x, a.y - b.y⟩

/-- Vector.dot from src/engine/geometry/vector.py. -/
def dot (a b : Vec) : ℚ := a.x * b.x + a.y * b.y

/-- Vector.cross from src/engine/geometry/vector.py (scalar 2D cross). -/
def cross (a b : Vec) : ℚ := a.x * b.y - a.y * b.x

end Vec

/-- The base step 1000 / 60 ms (`_base_delta` in src/engine/core/common.py,
src/engine/body/body.py and src/engine/collision/resolver.py). -/
def baseDelta : ℚ := 1000 / 60

/-- Kinematic state of a rigid body, the fields read and written by
`Body.update` in src/engine/body/body.py.  The vertex/axes/bounds geometry
that `update` translates and rotates afterwards involves trigonometry of the
new angle and is not part of this state; the claims proved about `update`
concern the kinematic fields only. -/
structure IBody where
  position : Vec
  positionPrev : Vec
  angle : ℚ
  anglePrev : ℚ
  velocity : Vec
  angularVelocity : ℚ
  force : Vec
  torque : ℚ
  mass : ℚ
  inertia : ℚ
  frictionAir : ℚ
  timeScale : ℚ
  deltaTime : ℚ
deriving DecidableEq, Repr

namespace Body

/-- `Body.update` (src/engine/body/body.py, lines 523-552): Verlet
integration with time correction.  `deltaTimeArg` is the raw step; the body
scales it by its own `time_scale`.  The expression
`if body.deltaTime = 0 then deltaTime else body.deltaTime` models the Python
`body['delta_time'] or delta_time` fallback.  `_time_correction` is True at
module level, so the correction factor is always applied. -/
def update (body : IBody) (deltaTimeArg : ℚ) : IBody :=
  let deltaTime := deltaTimeArg * body.timeScale
  let deltaTimeSquared := deltaTime * deltaTime
  let correction := deltaTime / (if body.deltaTime = 0 then deltaTime else body.deltaTime)
  let frictionAir := 1 - body.frictionAir * (deltaTime / baseDelta)
  let velocityPrevX := (body.position.x - body.positionPrev.x) * correction
  let velocityPrevY := (body.position.y - body.positionPrev.y) * correction
  let velX := velocityPrevX * frictionAir + (body.force.x / body.mass) * deltaTimeSquared
  let velY := velocityPrevY * frictionAir + (body.force.y / body.mass) * deltaTimeSquared
  let angularVelocity := (body.angle - body.anglePrev) * frictionAir * correction +
    (body.torque / body.inertia) * deltaTimeSquared
  { body with
    velocity := ⟨velX, velY⟩
    positionPrev := body.position
    position := ⟨body.position.x + velX, body.position.y + velY⟩
    deltaTime := deltaTime
    angularVelocity := angularVelocity
    anglePrev := body.angle
    angle := body.angle + angularVelocity }

end Body

/-- A sample dynamic body used to instantiate the integrator theorem. -/
def sampleIBody : IBody :=
  { position := ⟨10, 20⟩, positionPrev := ⟨9, 19⟩, angle := 1, anglePrev := 2,
    velocity := ⟨0, 0⟩, angularVelocity := 0, force := ⟨3, -4⟩, torque := 5,
    mass := 2, inertia := 8, frictionAir := 1 / 100, timeScale := 1,
    deltaTime := 1000 / 60 }

/-- A Python float that the static-freeze code may set to `float('inf')`:
either an ordinary (rational) value or infinity. -/
inductive Pf where
  | num (q : ℚ)
  | inf
deriving DecidableEq, Repr

/-- The snapshot stored in `_original` by `set_static` (src/engine/body/body.py,
lines 206-214). -/
structure Orig where
  restitution : ℚ
  friction : ℚ
  mass : Pf
  inertia : Pf
  density : Pf
  inverseMass : ℚ
  inverseInertia : ℚ
deriving DecidableEq, Repr

/-- The per-part body state read and written by `set_static`
(src/engine/body/body.py, lines 201-241). -/
structure SBody where
  restitution : ℚ
  friction : ℚ
  mass : Pf
  inertia : Pf
  density : Pf
  inverseMass : ℚ
  inverseInertia : ℚ
  position : Vec
  positionPrev : Vec
  angle : ℚ
  anglePrev : ℚ
  angularVelocity : ℚ
  speed : ℚ
  angularSpeed : ℚ
  motion : ℚ
  isStatic : Bool
  original : Option Orig
deriving DecidableEq, Repr

namespace Body

/-- The body of the `for part in body['parts']` loop of `set_static`
(src/engine/body/body.py, lines 203-241), applied to one part. -/
def setStaticPart (part : SBody) (isStatic : Bool) : SBody :=
  if isStatic then
    let part :=
      if part.isStatic = false then
        { part with original := some ⟨part.restitution, part.friction, part.mass,
            part.inertia, part.density, part.inverseMass, part.inverseInertia⟩ }
      else part
    { part with
      restitution := 0
      friction := 1
      mass := Pf.inf
      inertia := Pf.inf
      density := Pf.inf
      inverseMass := 0
      inverseInertia := 0
      positionPrev := part.position
      anglePrev := part.angle
      angularVelocity := 0
      speed := 0
      angularSpeed := 0
      motion := 0
      isStatic := true }
  else
    match part.original with
    | some o =>
      { part with
        restitution := o.restitution
        friction := o.friction
        mass := o.mass
        inertia := o.inertia
        density := o.density
        inverseMass := o.inverseMass
        inverseInertia := o.inverseInertia
        original := none
        isStatic := false }
    | none => { part with isStatic := false }

/-- `Body.set_static` (src/engine/body/body.py, lines 201-241): the loop over
all parts of the body, modelled on the list of parts. -/
def set_static (parts : List SBody) (isStatic : Bool) : List SBody :=
  parts.map (fun p => setStaticPart p isStatic)

end Body

/-- The seven material fields that `set_static` snapshots to `_original` and
restores from it. -/
def matFields (p : SBody) : ℚ × ℚ × Pf × Pf × Pf × ℚ × ℚ :=
  (p.restitution, p.friction, p.mass, p.inertia, p.density, p.inverseMass, p.inverseInertia)

/-- A sample dynamic part used to instantiate the freeze and restore theorem. -/
def sampleSPart : SBody :=
  { restitution := 1 / 2, friction := 3 / 10, mass := Pf.num 4, inertia := Pf.num 12,
    density := Pf.num (1 / 100), inverseMass := 1 / 4, inverseInertia := 1 / 12,
    position := ⟨5, 6⟩, positionPrev := ⟨4, 6⟩, angle := 1, anglePrev := 1,
    angularVelocity := 0, speed := 1, angularSpeed := 0, motion := 1,
    isStatic := false, original := none }

/-- The body state read and written by `Sleeping.set_sleeping`
(src/engine/core/sleeping.py, lines 62-81). -/
structure ZBody where
  isSleeping : Bool
  sleepCounter : ℚ
  sleepThreshold : ℚ
  positionImpulse : Vec
  position : Vec
  positionPrev : Vec
  angle : ℚ
  anglePrev : ℚ
  speed : ℚ
  angularSpeed : ℚ
  motion : ℚ
deriving DecidableEq, Repr

namespace Sleeping

/-- `Sleeping.set_sleeping` (src/engine/core/sleeping.py, lines 62-81). -/
def set_sleeping (body : ZBody) (isSleeping : Bool) : ZBody :=
  if isSleeping then
    { body with
      isSleeping := true
      sleepCounter := body.sleepThreshold
      positionImpulse := ⟨0, 0⟩
      positionPrev := body.position
      anglePrev := body.angle
      speed := 0
      angularSpeed := 0
      motion := 0 }
  else
    { body with isSleeping := false, sleepCounter := 0 }

end Sleeping

/-- An awake body that has accumulated a nonzero sleep counter (as the
`update` loop of src/engine/core/sleeping.py does for a slow body that has
not yet crossed its threshold). -/
def awakeCountingBody : ZBody :=
  { isSleeping := false, sleepCounter := 3, sleepThreshold := 60,
    positionImpulse := ⟨0, 0⟩, position := ⟨1, 2⟩, positionPrev := ⟨1, 2⟩,
    angle := 0, anglePrev := 0, speed := 0, angularSpeed := 0, motion := 0 }

/-- An awake body whose sleep counter is 0. -/
def awakeIdleBody : ZBody :=
  { awakeCountingBody with sleepCounter := 0 }

/-- The body state read and written by `Resolver.post_solve_position`
(src/engine/collision/resolver.py, lines 97-130).  The body is modelled as
its own single part, as for every non-compound body; for a compound body the
parent position and previous position are shifted exactly the same way.
Bounds are the AABB min/max corners, `none` for an empty vertex list (where
the Python update would leave the infinite initial bounds). -/
structure QBody where
  position : Vec
  positionPrev : Vec
  positionImpulse : Vec
  velocity : Vec
  totalContacts : ℕ
  vertices : List Vec
  bounds : Option (Vec × Vec)
deriving DecidableEq, Repr

/-- `Bounds.update` (src/engine/geometry/bounds.py): min/max of the vertices,
expanded along the direction of the velocity. -/
def boundsUpdate (vertices : List Vec) (velocity : Vec) : Option (Vec × Vec) :=
  match vertices with
  | [] => none
  | v :: rest =>
    let mm := rest.foldl (fun (mm : Vec × Vec) w =>
      (⟨min mm.1.x w.x, min mm.1.y w.y⟩, ⟨max mm.2.x w.x, max mm.2.y w.y⟩)) (v, v)
    some (⟨mm.1.x + (if velocity.x > 0 then 0 else velocity.x),
           mm.1.y + (if velocity.y > 0 then 0 else velocity.y)⟩,
          ⟨mm.2.x + (if velocity.x > 0 then velocity.x else 0),
           mm.2.y + (if velocity.y > 0 then velocity.y else 0)⟩)

namespace Resolver

/-- `_position_warming` (src/engine/collision/resolver.py). -/
def positionWarming : ℚ := 8 / 10

/-- The body of the loop of `Resolver.post_solve_position`
(src/engine/collision/resolver.py, lines 99-129), applied to one body. -/
def postSolvePositionBody (body : QBody) : QBody :=
  let imp := body.positionImpulse
  let body := { body with totalContacts := 0 }
  if imp.x ≠ 0 ∨ imp.y ≠ 0 then
    let verts := body.vertices.map (fun v => ⟨v.x + imp.x, v.y + imp.y⟩)
    let body := { body with
      vertices := verts
      bounds := boundsUpdate verts body.velocity
      position := ⟨body.position.x + imp.x, body.position.y + imp.y⟩
      positionPrev := ⟨body.positionPrev.x + imp.x, body.positionPrev.y + imp.y⟩ }
    if imp.x * body.velocity.x + imp.y * body.velocity.y < 0 then
      { body with positionImpulse := ⟨0, 0⟩ }
    else
      { body with positionImpulse := ⟨imp.x * positionWarming, imp.y * positionWarming⟩ }
  else body

/-- `Resolver.post_solve_position` (src/engine/collision/resolver.py,
lines 97-130): the loop over all bodies. -/
def post_solve_position (bodies : List QBody) : List QBody :=
  bodies.map postSolvePositionBody

end Resolver

/-- The largest `m ≤ k` with `m * m ≤ n` (counting down from `k`). -/
def natSqrtAux (n : ℕ) : ℕ → ℕ
  | 0 => 0
  | k + 1 => if (k + 1) * (k + 1) ≤ n then k + 1 else natSqrtAux n k

/-- The floor square root of a natural number, by downward search. -/
def natSqrt (n : ℕ) : ℕ := natSqrtAux n n

/-- An exact rational stand-in for `math.sqrt`: the floor square root of the
numerator over the floor square root of the denominator.  It agrees with the
mathematical square root on perfect squares (in particular on every
axis-aligned edge length used below), is positive exactly when the argument
is positive, and zero exactly when the argument is zero — the only properties
of `math.sqrt` that the verified statements depend on.  The Python source
computes an inexact binary-float square root here. -/
def ratSqrt (q : ℚ) : ℚ := (natSqrt q.num.toNat : ℚ) / (natSqrt q.den : ℚ)

namespace Vector

/-- `Vector.normalise` (src/engine/geometry/vector.py): divide by the
magnitude, returning the zero vector when the magnitude is zero.  The
magnitude is zero exactly when the vector is zero, for `ratSqrt` just as for
`math.sqrt`. -/
def normalise (v : Vec) : Vec :=
  let m := ratSqrt (v.x * v.x + v.y * v.y)
  if m = 0 then ⟨0, 0⟩ else ⟨v.x / m, v.y / m⟩

end Vector

/-- The gradient key used by `Axes.from_vertices`
(src/engine/geometry/axes.py): `normal.y / normal.x`, or a signed infinity
when `normal.x == 0`.  The two float infinities are distinct dict keys, while
`0.0` and `-0.0` are the same dict key (and the same rational), which this
inductive mirrors. -/
inductive SlopeKey where
  | finite (q : ℚ)
  | posInf
  | negInf
deriving DecidableEq, Repr

/-- The key computation of src/engine/geometry/axes.py, lines 23-28. -/
def gradientKey (normal : Vec) : SlopeKey :=
  if normal.x = 0 then (if 0 ≤ normal.y then SlopeKey.posInf else SlopeKey.negInf)
  else SlopeKey.finite (normal.y / normal.x)

/-- Insert-or-update on an association list, preserving insertion order:
the semantics of `axes[gradient_key] = normal` on a Python dict. -/
def upsert (m : List (SlopeKey × Vec)) (k : SlopeKey) (v : Vec) : List (SlopeKey × Vec) :=
  if m.any (fun kv => kv.1 = k) then
    m.map (fun kv => if kv.1 = k then (k, v) else kv)
  else m ++ [(k, v)]

/-- The consecutive edge pairs `(vertices[i], vertices[(i+1) % len])` that
both `Axes.from_vertices` and the centroid/inertia sums iterate over. -/
def edgePairs (vertices : List Vec) : List (Vec × Vec) :=
  match vertices with
  | [] => []
  | v :: rest => List.zip (v :: rest) (rest ++ [v])

namespace Axes

/-- `Axes.from_vertices` (src/engine/geometry/axes.py, lines 6-31): the
normalised perpendicular of every edge, bucketed into a dict keyed by slope;
the dict values, in insertion order, are the returned axes. -/
def from_vertices (vertices : List Vec) : List Vec :=
  ((edgePairs vertices).foldl (fun m vw =>
      let normal := Vector.normalise ⟨vw.2.y - vw.1.y, vw.1.x - vw.2.x⟩
      upsert m (gradientKey normal) normal) []).map (fun kv => kv.2)

end Axes

/-- The axis-aligned rectangle that `Body.create` uses as its default shape
(`from_path('L 0 0 L 40 0 L 40 40 L 0 40')` in src/engine/body/body.py). -/
def squareVerts : List Vec := [⟨0, 0⟩, ⟨40, 0⟩, ⟨40, 40⟩, ⟨0, 40⟩]

/-- A 3-4-5 right triangle, whose two non-vertical edge normals are exact
rationals. -/
def triVerts : List Vec := [⟨0, 0⟩, ⟨4, 0⟩, ⟨0, 3⟩]

namespace Vertices

/-- The list of vertices rotated right by one: pairs each vertex with its
predecessor, `vertices[-1]` first, as the shoelace loop of `Vertices.area`
(src/engine/geometry/vertices.py, lines 65-76) walks them. -/
def rotateRight1 (vs : List Vec) : List Vec :=
  match vs.getLast? with
  | none => []
  | some l => l :: vs.dropLast

/-- The raw shoelace sum of `Vertices.area`
(src/engine/geometry/vertices.py, lines 65-76), before halving. -/
def areaSum (vertices : List Vec) : ℚ :=
  (List.zip (rotateRight1 vertices) vertices).foldl
    (fun acc vw => acc + (vw.1.x - vw.2.x) * (vw.1.y + vw.2.y)) 0

/-- `Vertices.area` with `signed=True`. -/
def area_signed (vertices : List Vec) : ℚ := areaSum vertices / 2

/-- `Vertices.area` with `signed=False` (the default): absolute value. -/
def area (vertices : List Vec) : ℚ := |areaSum vertices| / 2

/-- `Vertices.centre` (src/engine/geometry/vertices.py, lines 38-49): the
area-weighted centroid, divided by six times the signed area.  When that
divisor is zero the Python `Vector.div` raises an unguarded
ZeroDivisionError; this is modelled as `none`. -/
def centre (vertices : List Vec) : Option Vec :=
  let areaVal := area_signed vertices
  let c := (edgePairs vertices).foldl (fun (acc : Vec) vw =>
      let crossVal := Vec.cross vw.1 vw.2
      ⟨acc.x + (vw.1.x + vw.2.x) * crossVal, acc.y + (vw.1.y + vw.2.y) * crossVal⟩) ⟨0, 0⟩
  if 6 * areaVal = 0 then none
  else some ⟨c.x / (6 * areaVal), c.y / (6 * areaVal)⟩

/-- `Vertices.inertia` (src/engine/geometry/vertices.py, lines 79-96):
second moment of area for the given mass, 0 when the denominator is 0. -/
def inertia (vertices : List Vec) (mass : ℚ) : ℚ :=
  let nd := (edgePairs vertices).foldl (fun (nd : ℚ × ℚ) vw =>
      let crossVal := |Vec.cross vw.2 vw.1|
      (nd.1 + crossVal * (Vec.dot vw.2 vw.2 + Vec.dot vw.2 vw.1 + Vec.dot vw.1 vw.1),
       nd.2 + crossVal)) (0, 0)
  if nd.2 = 0 then 0 else mass / 6 * (nd.1 / nd.2)

end Vertices

/-- The body state read and written by `Body.set_vertices`
(src/engine/body/body.py, lines 267-292).  The final `Bounds.update` call of
`set_vertices` refreshes an AABB that no verified statement reads, so bounds
are not carried here. -/
structure VBody where
  position : Vec
  density : ℚ
  mass : ℚ
  inertia : ℚ
  inverseMass : ℚ
  inverseInertia : ℚ
  area : ℚ
  vertices : List Vec
  axes : List Vec
deriving DecidableEq, Repr

namespace Body

/-- `Body.set_mass` (src/engine/body/body.py, lines 244-252). -/
def set_mass (body : VBody) (mass : ℚ) : VBody :=
  let moment := if body.mass ≠ 0 then body.inertia / (body.mass / 6) else 0
  let inertia := moment * (mass / 6)
  let inverseInertia := if inertia ≠ 0 then 1 / inertia else 0
  let inverseMass := if mass ≠ 0 then 1 / mass else 0
  let density := if body.area ≠ 0 then mass / body.area else 0
  { body with
    inertia := inertia
    inverseInertia := inverseInertia
    mass := mass
    inverseMass := inverseMass
    density := density }

/-- `Body.set_inertia` (src/engine/body/body.py, lines 261-264). -/
def set_inertia (body : VBody) (inertia : ℚ) : VBody :=
  { body with
    inertia := inertia
    inverseInertia := if inertia ≠ 0 then 1 / inertia else 0 }

end Body

/-- The observable outcome of running `Body.set_vertices`:
either a successfully constructed body, the specific invalid-geometry error
kind the specification describes, or an unguarded Python exception escaping
the call (a ZeroDivisionError). -/
inductive ConstructResult where
  | ok (body : VBody)
  | invalidGeometry
  | uncaughtException
deriving DecidableEq, Repr

namespace Body

/-- `Body.set_vertices` (src/engine/body/body.py, lines 267-292): re-derive
axes, area and mass, re-centre the vertices on their centroid, derive the
inertia with the `_inertia_scale = 4` multiplier, and translate the vertices
back to the body position.  `Vertices.centre` divides by six times the
signed area; when the polygon is degenerate this raises an unguarded
ZeroDivisionError, modelled by the `uncaughtException` outcome. -/
def set_vertices (body : VBody) (points : List Vec) : ConstructResult :=
  let body := { body with
    vertices := points
    axes := Axes.from_vertices points
    area := Vertices.area points }
  let body := Body.set_mass body (body.density * body.area)
  match Vertices.centre body.vertices with
  | none => ConstructResult.uncaughtException
  | some c =>
    let vertsAtOrigin := body.vertices.map (fun v => ⟨v.x - c.x, v.y - c.y⟩)
    let body := { body with vertices := vertsAtOrigin }
    let body := Body.set_inertia body (4 * Vertices.inertia body.vertices body.mass)
    let vertsBack := body.vertices.map (fun v => ⟨v.x + body.position.x, v.y + body.position.y⟩)
    ConstructResult.ok { body with vertices := vertsBack }

end Body

/-- Invariant of the axes dict built by `Axes.from_vertices`: every entry
maps a slope key to a normal having exactly that key, and keys are pairwise
distinct (as the keys of any dict are). -/
def KeyInv (m : List (SlopeKey × Vec)) : Prop :=
  (∀ kv ∈ m, kv.1 = gradientKey kv.2) ∧ m.Pairwise (fun a b => a.1 ≠ b.1)

/-- Three collinear points: a degenerate polygon with zero area. -/
def degenerateTri : List Vec := [⟨0, 0⟩, ⟨1, 1⟩, ⟨2, 2⟩]

/-- A fresh body record as `Body.create` holds it when `_init_properties`
first reaches `set_vertices`: zero mass, inertia and area, default density. -/
def freshVBody : VBody :=
  { position := ⟨0, 0⟩, density := 1 / 1000, mass := 0, inertia := 0,
    inverseMass := 0, inverseInertia := 0, area := 0, vertices := [], axes := [] }

/-- The per-body data that the SAT narrowphase `Collision.collides` and the
pair cache `Pairs.update` read: identity, pose, world-space geometry, and the
material parameters from which the pair derives its own.  In the source these
are fields of the one body dict; `parent` back-references are the body itself
for every non-compound body, and `collides` copies its `body_a['parent']`
into `parent_a`, so here the collision carries the body record itself as its
parent. -/
structure CBody where
  id : ℕ
  position : Vec
  vertices : List Vec
  axes : List Vec
  inverseMass : ℚ
  friction : ℚ
  frictionStatic : ℚ
  restitution : ℚ
  slop : ℚ
  isSensor : Bool
deriving DecidableEq, Repr

/-- `Vertices.contains` (src/engine/geometry/vertices.py, lines 130-142):
inside-test for clockwise polygons, walking edge pairs starting from
`vertices[-1]`; any positive value means outside.  On an empty list the
Python indexing of `vertices[-1]` would raise; `collides` never passes one. -/
def containsPoint (vertices : List Vec) (point : Vec) : Bool :=
  match vertices.getLast? with
  | none => true
  | some last =>
    (List.zip (last :: vertices.dropLast) vertices).all fun vw =>
      !(decide ((point.x - vw.1.x) * (vw.2.y - vw.1.y) +
        (point.y - vw.1.y) * (vw.1.x - vw.2.x) > 0))

/-- The projection span (min, max) of a vertex list on an axis: the inner
loops of `_overlap_axes` (src/engine/collision/collision.py, lines 152-173). -/
def projectSpan (vertices : List Vec) (axis : Vec) : ℚ × ℚ :=
  match vertices with
  | [] => (0, 0)
  | v :: rest =>
    let d0 := v.x * axis.x + v.y * axis.y
    rest.foldl (fun mm w =>
      let d := w.x * axis.x + w.y * axis.y
      (min mm.1 d, max mm.2 d)) (d0, d0)

/-- The result record that `_overlap_axes` fills in. -/
structure OverlapResult where
  overlap : ℚ
  axis : Vec
deriving DecidableEq, Repr

/-- The axis loop of `_overlap_axes` (src/engine/collision/collision.py,
lines 152-188) after its first iteration: track the smallest overlap and its
axis, stopping early as soon as an overlap is not positive. -/
def overlapAxesGo (vertsA vertsB : List Vec) : List Vec → ℚ → Vec → OverlapResult
  | [], best, bestAxis => ⟨best, bestAxis⟩
  | ax :: rest, best, bestAxis =>
    let sa := projectSpan vertsA ax
    let sb := projectSpan vertsB ax
    let ov := min (sa.2 - sb.1) (sb.2 - sa.1)
    if ov < best then
      if ov ≤ 0 then ⟨ov, ax⟩ else overlapAxesGo vertsA vertsB rest ov ax
    else overlapAxesGo vertsA vertsB rest best bestAxis

/-- `_overlap_axes` (src/engine/collision/collision.py, lines 140-188).  The
first axis always replaces the infinite initial overlap, so it seeds the
search.  On an empty axes list the Python `axes[0]` would raise an
IndexError; the model returns overlap 0, which `collides` rejects just as it
rejects every non-positive overlap. -/
def overlapAxes (vertsA vertsB axes : List Vec) : OverlapResult :=
  match axes with
  | [] => ⟨0, ⟨0, 0⟩⟩
  | ax :: rest =>
    let sa := projectSpan vertsA ax
    let sb := projectSpan vertsB ax
    let ov := min (sa.2 - sb.1) (sb.2 - sa.1)
    if ov ≤ 0 then ⟨ov, ax⟩ else overlapAxesGo vertsA vertsB rest ov ax

/-- The projection distance used by `_find_supports`
(src/engine/collision/collision.py, lines 203-221). -/
def supportDistance (bodyAPos : Vec) (nx ny : ℚ) (v : Vec) : ℚ :=
  nx * (bodyAPos.x - v.x) + ny * (bodyAPos.y - v.y)

/-- `_find_supports` (src/engine/collision/collision.py, lines 191-228):
hill-climb to the deepest vertex of `bodyB` along the signed normal, then
pair it with whichever neighbour is deeper.  Vertex `index` fields equal list
positions (the `Vertices.create` invariant), so neighbours are found by
position. -/
def findSupports (bodyA bodyB : CBody) (normal : Vec) (direction : ℚ) : Vec × Vec :=
  let vertices := bodyB.vertices
  let n := vertices.length
  let nx := normal.x * direction
  let ny := normal.y * direction
  let v0 := vertices.headD ⟨0, 0⟩
  let best := (vertices.enum.drop 1).foldl (fun (b : ℕ × Vec × ℚ) iv =>
    let d := supportDistance bodyA.position nx ny iv.2
    if d < b.2.2 then (iv.1, iv.2, d) else b)
    (0, v0, supportDistance bodyA.position nx ny v0)
  let vertexA := best.2.1
  let vertexC := vertices.getD ((n + best.1 - 1) % n) ⟨0, 0⟩
  let vertexB := vertices.getD ((best.1 + 1) % n) ⟨0, 0⟩
  if supportDistance bodyA.position nx ny vertexB <
      supportDistance bodyA.position nx ny vertexC
  then (vertexA, vertexB) else (vertexA, vertexC)

/-- Write into slot `k` of the two support slots (`supports[support_count] =
...` in the source). -/
def setSupport (s : Option Vec × Option Vec) (k : ℕ) (v : Vec) : Option Vec × Option Vec :=
  if k = 0 then (some v, s.2) else (s.1, some v)

/-- The support-selection block of `collides`
(src/engine/collision/collision.py, lines 104-132): keep the supports of B
inside A; if fewer than two, add supports of A inside B; if none at all,
fall back to the first support of B. -/
def findCollisionSupports (bodyA bodyB : CBody) (normal : Vec) :
    (Option Vec × Option Vec) × ℕ :=
  let sb := findSupports bodyA bodyB normal 1
  let s0 : Option Vec × Option Vec := (none, none)
  let r1 := if containsPoint bodyA.vertices sb.1 then (setSupport s0 0 sb.1, 1) else (s0, 0)
  let r2 := if containsPoint bodyA.vertices sb.2
    then (setSupport r1.1 r1.2 sb.2, r1.2 + 1) else r1
  let r3 :=
    if r2.2 < 2 then
      let sa := findSupports bodyB bodyA normal (-1)
      let r2a := if containsPoint bodyB.vertices sa.1
        then (setSupport r2.1 r2.2 sa.1, r2.2 + 1) else r2
      if r2a.2 < 2 then
        if containsPoint bodyB.vertices sa.2
          then (setSupport r2a.1 r2a.2 sa.2, r2a.2 + 1) else r2a
      else r2a
    else r2
  if r3.2 = 0 then ((some sb.1, none), 1) else r3

/-- The collision record (src/engine/collision/collision.py, `create`):
canonically ordered bodies, their parents, depth, normal, tangent,
penetration and up to two supports. -/
structure Collision where
  bodyA : CBody
  bodyB : CBody
  parentA : CBody
  parentB : CBody
  depth : ℚ
  normal : Vec
  tangent : Vec
  penetration : Vec
  supports : Option Vec × Option Vec
  supportCount : ℕ
deriving DecidableEq, Repr

namespace Collision

/-- `Collision.collides` (src/engine/collision/collision.py, lines 38-137):
SAT on the axes of both bodies, then orientation of the minimum axis against
the position delta, then support selection.  The record-reuse path (looking
the pair up to reuse its collision object) only avoids allocation: a reused
record was created with the same canonical body order, so the fields written
are the same, and the model always builds a fresh record. -/
def collides (bodyA bodyB : CBody) : Option Collision :=
  let oab := overlapAxes bodyA.vertices bodyB.vertices bodyA.axes
  if oab.overlap ≤ 0 then none
  else
    let oba := overlapAxes bodyB.vertices bodyA.vertices bodyB.axes
    if oba.overlap ≤ 0 then none
    else
      let a := if bodyA.id < bodyB.id then bodyA else bodyB
      let b := if bodyA.id < bodyB.id then bodyB else bodyA
      let minOverlap := if oab.overlap < oba.overlap then oab else oba
      let depth := minOverlap.overlap
      let axis := minOverlap.axis
      let deltaX := b.position.x - a.position.x
      let deltaY := b.position.y - a.position.y
      let nrm : Vec := if axis.x * deltaX + axis.y * deltaY ≥ 0
        then ⟨-axis.x, -axis.y⟩ else axis
      let sc := findCollisionSupports a b nrm
      some { bodyA := a
             bodyB := b
             parentA := a
             parentB := b
             depth := depth
             normal := nrm
             tangent := ⟨-nrm.y, nrm.x⟩
             penetration := ⟨nrm.x * depth, nrm.y * depth⟩
             supports := sc.1
             supportCount := sc.2 }

end Collision

/-- A 40 by 40 square body centred at the origin. -/
def sqBodyA : CBody :=
  { id := 1, position := ⟨0, 0⟩,
    vertices := [⟨-20, -20⟩, ⟨20, -20⟩, ⟨20, 20⟩, ⟨-20, 20⟩],
    axes := Axes.from_vertices [⟨-20, -20⟩, ⟨20, -20⟩, ⟨20, 20⟩, ⟨-20, 20⟩],
    inverseMass := 1, friction := 1 / 10, frictionStatic := 1 / 2,
    restitution := 0, slop := 1 / 20, isSensor := false }

/-- A 40 by 40 square body centred at (30, 0), overlapping `sqBodyA`. -/
def sqBodyB : CBody :=
  { id := 2, position := ⟨30, 0⟩,
    vertices := [⟨10, -20⟩, ⟨50, -20⟩, ⟨50, 20⟩, ⟨10, 20⟩],
    axes := Axes.from_vertices [⟨10, -20⟩, ⟨50, -20⟩, ⟨50, 20⟩, ⟨10, 20⟩],
    inverseMass := 1, friction := 1 / 10, frictionStatic := 1 / 2,
    restitution := 0, slop := 1 / 20, isSensor := false }

/-- The collision record that `collides` produces for the two squares: the
minimum-overlap axis is the vertical edge normal (-1, 0), depth 10, and the
two supports are the left edge corners of the second square. -/
def collisionAB : Collision :=
  { bodyA := sqBodyA, bodyB := sqBodyB, parentA := sqBodyA, parentB := sqBodyB,
    depth := 10, normal := ⟨-1, 0⟩, tangent := ⟨0, -1⟩, penetration := ⟨-10, 0⟩,
    supports := (some ⟨10, -20⟩, some ⟨10, 20⟩), supportCount := 2 }

/-- A cached contact (src/engine/collision/pairs.py, `_create_pair`):
the support vertex it tracks and the warm-started impulses. -/
structure Contact where
  vertex : Option Vec
  normalImpulse : ℚ
  tangentImpulse : ℚ
deriving DecidableEq, Repr

/-- A cached pair (src/engine/collision/pairs.py, `_create_pair`).  The id is
the ordered pair of parent ids, modelling the canonical string
`A{min}B{max}` built by `id_from_bodies` (the encoding into that string is
injective, so the ordered pair is the same key). -/
structure Pair where
  pairId : ℕ × ℕ
  contact0 : Contact
  contact1 : Contact
  contactCount : ℕ
  separation : ℚ
  isActive : Bool
  isSensor : Bool
  confirmed : Bool
  timeCreated : ℚ
  timeUpdated : ℚ
  inverseMass : ℚ
  friction : ℚ
  frictionStatic : ℚ
  restitution : ℚ
  slop : ℚ
  collision : Collision
deriving DecidableEq, Repr

/-- The pairs structure (src/engine/collision/pairs.py, `create`).  The
source keeps both a dict `table` and a list `list` holding the same pair
objects: pairs are added to and removed from both together, so the table is
modelled as lookup by id over the list.  The three event lists hold pair
ids. -/
structure PairsState where
  list : List Pair
  collisionStart : List (ℕ × ℕ)
  collisionActive : List (ℕ × ℕ)
  collisionEnd : List (ℕ × ℕ)
deriving DecidableEq, Repr

namespace Pairs

/-- `Pairs.id_from_bodies` (src/engine/collision/pairs.py, lines 155-160):
the smaller id first. -/
def id_from_bodies (bodyA bodyB : CBody) : ℕ × ℕ :=
  if bodyA.id < bodyB.id then (bodyA.id, bodyB.id) else (bodyB.id, bodyA.id)

/-- The update of an existing pair in `Pairs.update`
(src/engine/collision/pairs.py, lines 52-70): reactivate, stamp both times
with the current timestamp, adopt the collision and the derived material
fields, and copy the supports into the contacts. -/
def updatePairFields (pair : Pair) (collision : Collision) (timestamp : ℚ) : Pair :=
  let pair := { pair with
    isActive := true
    timeCreated := timestamp
    timeUpdated := timestamp
    collision := collision
    inverseMass := collision.parentA.inverseMass + collision.parentB.inverseMass
    friction := min collision.parentA.friction collision.parentB.friction
    frictionStatic := max collision.parentA.frictionStatic collision.parentB.frictionStatic
    restitution := max collision.parentA.restitution collision.parentB.restitution
    slop := max collision.parentA.slop collision.parentB.slop
    confirmed := true
    contactCount := collision.supportCount }
  let pair := if 0 < min collision.supportCount 2 then
      { pair with contact0 := { pair.contact0 with vertex := collision.supports.1 } }
    else pair
  if 1 < min collision.supportCount 2 then
    { pair with contact1 := { pair.contact1 with vertex := collision.supports.2 } }
  else pair

/-- `Pairs._create_pair` (src/engine/collision/pairs.py, lines 103-139). -/
def createPair (collision : Collision) (timestamp : ℚ) : Pair :=
  { pairId := id_from_bodies collision.parentA collision.parentB
    contact0 := { vertex := if 0 < collision.supportCount then collision.supports.1 else none
                  normalImpulse := 0, tangentImpulse := 0 }
    contact1 := { vertex := if 1 < collision.supportCount then collision.supports.2 else none
                  normalImpulse := 0, tangentImpulse := 0 }
    contactCount := collision.supportCount
    separation := 0
    isActive := true
    isSensor := collision.bodyA.isSensor || collision.bodyB.isSensor
    confirmed := true
    timeCreated := timestamp
    timeUpdated := timestamp
    inverseMass := collision.parentA.inverseMass + collision.parentB.inverseMass
    friction := min collision.parentA.friction collision.parentB.friction
    frictionStatic := max collision.parentA.frictionStatic collision.parentB.frictionStatic
    restitution := max collision.parentA.restitution collision.parentB.restitution
    slop := max collision.parentA.slop collision.parentB.slop
    collision := collision }

/-- One iteration of the collision loop of `Pairs.update`
(src/engine/collision/pairs.py, lines 37-76): look the pair up; if present,
classify it into the active or start list and update it in place; otherwise
create it and append it to the list and the start list. -/
def processCollision (timestamp : ℚ) (st : PairsState) (collision : Collision) : PairsState :=
  let pid := id_from_bodies collision.parentA collision.parentB
  match st.list.find? (fun p => decide (p.pairId = pid)) with
  | some pair =>
    let st := if pair.isActive
      then { st with collisionActive := st.collisionActive ++ [pid] }
      else { st with collisionStart := st.collisionStart ++ [pid] }
    { st with list := st.list.map (fun p =>
        if p.pairId = pid then updatePairFields p collision timestamp else p) }
  | none =>
    { st with
      list := st.list ++ [createPair collision timestamp]
      collisionStart := st.collisionStart ++ [pid] }

/-- The deactivation applied to unconfirmed pairs at the end of
`Pairs.update` (src/engine/collision/pairs.py, lines 80-89): clear the
active flag and zero the cached contact impulses. -/
def deactivatePair (pair : Pair) : Pair :=
  { pair with
    isActive := false
    contact0 := { pair.contact0 with normalImpulse := 0, tangentImpulse := 0 }
    contact1 := { pair.contact1 with normalImpulse := 0, tangentImpulse := 0 } }

/-- `Pairs.update` (src/engine/collision/pairs.py, lines 19-100): clear the
event lists, mark every pair unconfirmed, process every collision, then
deactivate the pairs left unconfirmed, appending them to the end list and
evicting those idle for more than 1000 ms of simulation time. -/
def update (st : PairsState) (collisions : List Collision) (timestamp : ℚ) : PairsState :=
  let st : PairsState :=
    { list := st.list.map (fun p => { p with confirmed := false })
      collisionStart := []
      collisionActive := []
      collisionEnd := [] }
  let st := collisions.foldl (processCollision timestamp) st
  { st with
    collisionEnd := st.collisionEnd ++
      ((st.list.filter (fun p => !p.confirmed)).map (fun p => p.pairId))
    list := (st.list.map (fun p => if p.confirmed then p else deactivatePair p)).filter
      (fun p => p.confirmed || !(decide (timestamp - p.timeUpdated > 1000))) }

end Pairs

/-- An empty pair cache. -/
def emptyPairs : PairsState :=
  { list := [], collisionStart := [], collisionActive := [], collisionEnd := [] }

/-- The body state read and written by `Resolver.solve_velocity`
(src/engine/collision/resolver.py): Verlet pose and the mass data and flags
that gate impulse application. -/
structure RBody where
  position : Vec
  positionPrev : Vec
  angle : ℚ
  anglePrev : ℚ
  inverseMass : ℚ
  inverseInertia : ℚ
  isStatic : Bool
  isSleeping : Bool
deriving DecidableEq, Repr

/-- The all-zero body, used as the out-of-range default for the body store
(the source holds direct references, which are always in range). -/
def rbodyZero : RBody :=
  { position := ⟨0, 0⟩, positionPrev := ⟨0, 0⟩, angle := 0, anglePrev := 0,
    inverseMass := 0, inverseInertia := 0, isStatic := false, isSleeping := false }

/-- The pair fields read by `Resolver.solve_velocity`.  `bodyA` and `bodyB`
index into the body store, modelling the `parent_a` and `parent_b` references
of the pair collision. -/
structure RPair where
  isActive : Bool
  isSensor : Bool
  bodyA : ℕ
  bodyB : ℕ
  normal : Vec
  tangent : Vec
  separation : ℚ
  inverseMass : ℚ
  friction : ℚ
  frictionStatic : ℚ
  restitution : ℚ
  contact0 : Contact
  contact1 : Contact
  contactCount : ℕ
deriving DecidableEq, Repr

/-- Clamp a value into [-bound, bound], where an infinite bound (the
`_friction_max_static = float('inf')` of the source) leaves it unchanged:
the two sequential comparisons of src/engine/collision/resolver.py,
lines 295-298. -/
def clampAbs (v : ℚ) (bound : Pf) : ℚ :=
  match bound with
  | Pf.inf => v
  | Pf.num m => if v < -m then -m else if v > m then m else v

namespace Resolver

/-- The normal-axis cache update of `solve_velocity`
(src/engine/collision/resolver.py, lines 275-285): a high-velocity contact
resets the cached impulse to 0 and applies the raw impulse; a resting
contact accumulates the raw impulse into the cache, clamps the cache to at
most 0, and applies the difference.  Returns the updated contact and the
impulse to apply. -/
def solveNormalImpulse (restingThresh normalVelocity normalImpulseRaw : ℚ)
    (contact : Contact) : Contact × ℚ :=
  if normalVelocity < restingThresh then
    ({ contact with normalImpulse := 0 }, normalImpulseRaw)
  else
    let cni0 := contact.normalImpulse + normalImpulseRaw
    let cni := if cni0 > 0 then 0 else cni0
    ({ contact with normalImpulse := cni }, cni - contact.normalImpulse)

/-- The tangent-axis cache update of `solve_velocity`
(src/engine/collision/resolver.py, lines 287-299), the analogue of
`solveNormalImpulse` with the square-root-of-six threshold and the
plus-and-minus `max_friction` clamp. -/
def solveTangentImpulse (restingThreshTangent tangentVelocity tangentImpulseRaw : ℚ)
    (maxFriction : Pf) (contact : Contact) : Contact × ℚ :=
  if tangentVelocity < -restingThreshTangent ∨ tangentVelocity > restingThreshTangent then
    ({ contact with tangentImpulse := 0 }, tangentImpulseRaw)
  else
    let cti := clampAbs (contact.tangentImpulse + tangentImpulseRaw) maxFriction
    ({ contact with tangentImpulse := cti }, cti - contact.tangentImpulse)

/-- The per-contact body of the loop of `solve_velocity`
(src/engine/collision/resolver.py, lines 220-314).  The point velocities are
the ones computed once per pair before the contact loop, passed in.  The
Python `share` division can divide by zero when every inverse mass and
inertia is zero (two static parents never reach the solver); rational
division returns 0 there. -/
def solveContact (restingThresh restingThreshTangent timeScaleCubed frictionCoef
    contactShare : ℚ) (pair : RPair) (bodyA bodyB : RBody)
    (velAx velAy angVelA velBx velBy angVelB : ℚ) (contact : Contact) :
    Contact × RBody × RBody :=
  match contact.vertex with
  | none => (contact, bodyA, bodyB)
  | some vertex =>
    let offsetAx := vertex.x - bodyA.position.x
    let offsetAy := vertex.y - bodyA.position.y
    let offsetBx := vertex.x - bodyB.position.x
    let offsetBy := vertex.y - bodyB.position.y
    let velocityPointAx := velAx - offsetAy * angVelA
    let velocityPointAy := velAy + offsetAx * angVelA
    let velocityPointBx := velBx - offsetBy * angVelB
    let velocityPointBy := velBy + offsetBx * angVelB
    let relVelX := velocityPointAx - velocityPointBx
    let relVelY := velocityPointAy - velocityPointBy
    let normalVelocity := pair.normal.x * relVelX + pair.normal.y * relVelY
    let tangentVelocity := pair.tangent.x * relVelX + pair.tangent.y * relVelY
    let normalOverlap := pair.separation + normalVelocity
    let normalForce := min normalOverlap 1
    let normalForce := if normalOverlap < 0 then 0 else normalForce
    let frictionLimit := normalForce * frictionCoef
    let tm :=
      if tangentVelocity < -frictionLimit ∨ tangentVelocity > frictionLimit then
        let maxFriction := |tangentVelocity|
        let ti := pair.friction * (if tangentVelocity > 0 then 1 else -1) * timeScaleCubed
        let ti := if ti < -maxFriction then -maxFriction
          else if ti > maxFriction then maxFriction else ti
        (ti, Pf.num maxFriction)
      else (tangentVelocity, Pf.inf)
    let oAcN := offsetAx * pair.normal.y - offsetAy * pair.normal.x
    let oBcN := offsetBx * pair.normal.y - offsetBy * pair.normal.x
    let share := contactShare /
      (pair.inverseMass + bodyA.inverseInertia * oAcN * oAcN +
        bodyB.inverseInertia * oBcN * oBcN)
    let normalImpulseRaw := (1 + pair.restitution) * normalVelocity * share
    let tangentImpulseRaw := tm.1 * share
    let cn := solveNormalImpulse restingThresh normalVelocity normalImpulseRaw contact
    let ct := solveTangentImpulse restingThreshTangent tangentVelocity tangentImpulseRaw
      tm.2 cn.1
    let impulseX := pair.normal.x * cn.2 + pair.tangent.x * ct.2
    let impulseY := pair.normal.y * cn.2 + pair.tangent.y * ct.2
    let bodyA :=
      if !(bodyA.isStatic || bodyA.isSleeping) then
        { bodyA with
          positionPrev := ⟨bodyA.positionPrev.x + impulseX * bodyA.inverseMass,
            bodyA.positionPrev.y + impulseY * bodyA.inverseMass⟩
          anglePrev := bodyA.anglePrev +
            (offsetAx * impulseY - offsetAy * impulseX) * bodyA.inverseInertia }
      else bodyA
    let bodyB :=
      if !(bodyB.isStatic || bodyB.isSleeping) then
        { bodyB with
          positionPrev := ⟨bodyB.positionPrev.x - impulseX * bodyB.inverseMass,
            bodyB.positionPrev.y - impulseY * bodyB.inverseMass⟩
          anglePrev := bodyB.anglePrev -
            (offsetBx * impulseY - offsetBy * impulseX) * bodyB.inverseInertia }
      else bodyB
    (ct.1, bodyA, bodyB)

/-- The per-pair body of the loop of `solve_velocity`
(src/engine/collision/resolver.py, lines 186-314): skip inactive and sensor
pairs, read the two parent bodies, compute their point velocities once, then
run the contact loop over the first `min(contact_count, 2)` contacts,
threading the body updates through. -/
def solvePair (delta restingThreshTangent : ℚ) (bodies : List RBody) (pair : RPair) :
    RPair × List RBody :=
  if pair.isActive && !pair.isSensor then
    let timeScale := delta / baseDelta
    let timeScaleCubed := timeScale * timeScale * timeScale
    let restingThresh := -(2 * timeScale)
    let frictionCoef := pair.friction * pair.frictionStatic * (5 * timeScale)
    let contactShare := if pair.contactCount > 0 then 1 / (pair.contactCount : ℚ) else 1
    let bodyA := bodies.getD pair.bodyA rbodyZero
    let bodyB := bodies.getD pair.bodyB rbodyZero
    let velAx := bodyA.position.x - bodyA.positionPrev.x
    let velAy := bodyA.position.y - bodyA.positionPrev.y
    let angVelA := bodyA.angle - bodyA.anglePrev
    let velBx := bodyB.position.x - bodyB.positionPrev.x
    let velBy := bodyB.position.y - bodyB.positionPrev.y
    let angVelB := bodyB.angle - bodyB.anglePrev
    let s0 :=
      if 0 < min pair.contactCount 2 then
        solveContact restingThresh restingThreshTangent timeScaleCubed frictionCoef
          contactShare pair bodyA bodyB velAx velAy angVelA velBx velBy angVelB pair.contact0
      else (pair.contact0, bodyA, bodyB)
    let s1 :=
      if 1 < min pair.contactCount 2 then
        solveContact restingThresh restingThreshTangent timeScaleCubed frictionCoef
          contactShare pair s0.2.1 s0.2.2 velAx velAy angVelA velBx velBy angVelB pair.contact1
      else (pair.contact1, s0.2.1, s0.2.2)
    ({ pair with contact0 := s0.1, contact1 := s1.1 },
      (bodies.set pair.bodyA s1.2.1).set pair.bodyB s1.2.2)
  else (pair, bodies)

/-- The pair loop of `solve_velocity`: later pairs see the body state left by
earlier pairs, as the shared mutable body dicts do in the source. -/
def solveVelocityGo (delta restingThreshTangent : ℚ) :
    List RPair → List RBody → List RPair × List RBody
  | [], bodies => ([], bodies)
  | p :: rest, bodies =>
    let pb := solvePair delta restingThreshTangent bodies p
    let r := solveVelocityGo delta restingThreshTangent rest pb.2
    (pb.1 :: r.1, r.2)

end Resolver

/-- The pairs and bodies that one `Resolver.solve_velocity` call reads and
writes. -/
structure RState where
  pairs : List RPair
  bodies : List RBody
deriving DecidableEq, Repr

namespace Resolver

/-- `Resolver.solve_velocity` (src/engine/collision/resolver.py,
lines 176-314).  `restingThreshTangent` is the module constant
`_resting_thresh_tangent = math.sqrt(6)`; being irrational it is a parameter
here, and every property proved holds for all of its values. -/
def solve_velocity (st : RState) (delta restingThreshTangent : ℚ) : RState :=
  let r := solveVelocityGo delta restingThreshTangent st.pairs st.bodies
  { pairs := r.1, bodies := r.2 }

end Resolver

/-- Sample bodies for the velocity-solver witness. -/
def sampleRBodyA : RBody :=
  { position := ⟨0, 0⟩, positionPrev := ⟨-1, 0⟩, angle := 0, anglePrev := 0,
    inverseMass := 1, inverseInertia := 0, isStatic := false, isSleeping := false }

/-- Second sample body for the velocity-solver witness. -/
def sampleRBodyB : RBody :=
  { position := ⟨30, 0⟩, positionPrev := ⟨30, 0⟩, angle := 0, anglePrev := 0,
    inverseMass := 1, inverseInertia := 0, isStatic := false, isSleeping := false }

/-- An active two-contact pair between the sample bodies. -/
def sampleRPair : RPair :=
  { isActive := true, isSensor := false, bodyA := 0, bodyB := 1,
    normal := ⟨-1, 0⟩, tangent := ⟨0, -1⟩, separation := 10,
    inverseMass := 2, friction := 1 / 10, frictionStatic := 1 / 2, restitution := 0,
    contact0 := { vertex := some ⟨10, -20⟩, normalImpulse := 0, tangentImpulse := 0 },
    contact1 := { vertex := some ⟨10, 20⟩, normalImpulse := 0, tangentImpulse := 0 },
    contactCount := 2 }

/-- The sample solver state. -/
def sampleRState : RState :=
  { pairs := [sampleRPair], bodies := [sampleRBodyA, sampleRBodyB] }

/-- C2: one call of `Body.update` with step delta, scaled by the body's
`time_scale`, computes
velocity = (position - position_prev) * (delta / previous delta)
           * (1 - friction_air * (delta / base_delta)) + (force / mass) * delta^2,
then sets position_prev to the old position and position to
position + velocity, with the analogous scheme for the angle using
torque / inertia. -/
theorem body_update_formula (b : IBody) (δ : ℚ) (hprev : b.deltaTime ≠ 0) :
    (Body.update b δ).velocity =
      ⟨(b.position.x - b.positionPrev.x) * ((δ * b.timeScale) / b.deltaTime) *
          (1 - b.frictionAir * ((δ * b.timeScale) / baseDelta)) +
          (b.force.x / b.mass) * ((δ * b.timeScale) * (δ * b.timeScale)),
        (b.position.y - b.positionPrev.y) * ((δ * b.timeScale) / b.deltaTime) *
          (1 - b.frictionAir * ((δ * b.timeScale) / baseDelta)) +
          (b.force.y / b.mass) * ((δ * b.timeScale) * (δ * b.timeScale))⟩ ∧
    (Body.update b δ).positionPrev = b.position ∧
    (Body.update b δ).position =
      ⟨b.position.x + (Body.update b δ).velocity.x,
        b.position.y + (Body.update b δ).velocity.y⟩ ∧
    (Body.update b δ).angularVelocity =
      (b.angle - b.anglePrev) * ((δ * b.timeScale) / b.deltaTime) *
        (1 - b.frictionAir * ((δ * b.timeScale) / baseDelta)) +
        (b.torque / b.inertia) * ((δ * b.timeScale) * (δ * b.timeScale)) ∧
    (Body.update b δ).anglePrev = b.angle ∧
    (Body.update b δ).angle = b.angle + (Body.update b δ).angularVelocity := by
  refine ⟨?_, ?_, ?_, ?_, ?_, ?_⟩ <;> (simp only [Body.update, if_neg hprev]; try rfl)
  ring

/-- Witness for `body_update_formula` at a concrete body and step. -/
theorem body_update_formula_witness :
    sampleIBody.deltaTime ≠ 0 ∧ (Body.update sampleIBody (1000 / 60)).positionPrev =
      sampleIBody.position := by
  have h1 : sampleIBody.deltaTime ≠ 0 := by norm_num [sampleIBody]
  exact ⟨h1, (body_update_formula sampleIBody (1000 / 60) h1).2.1⟩

/-- C4: for a body all of whose parts are dynamic, freezing with
`set_static(body, true)` and then unfreezing with `set_static(body, false)`
restores the seven material fields (restitution, friction, mass, inertia,
density, inverse mass, inverse inertia) of every part exactly. -/
theorem set_static_roundtrip (parts : List SBody)
    (hdyn : ∀ p ∈ parts, p.isStatic = false) :
    (Body.set_static (Body.set_static parts true) false).map matFields =
      parts.map matFields := by
  induction parts with
  | nil => rfl
  | cons p rest ih =>
    have hp : p.isStatic = false := hdyn p (List.mem_cons_self p rest)
    have hrest := ih (fun q hq => hdyn q (List.mem_cons_of_mem p hq))
    simp only [Body.set_static, List.map_cons, List.cons.injEq] at hrest ⊢
    refine ⟨?_, hrest⟩
    simp [Body.setStaticPart, hp, matFields]

/-- Witness for `set_static_roundtrip` at a concrete one-part dynamic body. -/
theorem set_static_roundtrip_witness :
    (Body.set_static (Body.set_static [sampleSPart] true) false).map matFields =
      [sampleSPart].map matFields :=
  set_static_roundtrip [sampleSPart] (by decide)

/-- C8 counterexample: `set_sleeping(body, false)` on an awake body whose
sleep counter is nonzero is not a no-op, because it resets the counter
to 0. -/
theorem set_sleeping_awake_not_noop :
    Sleeping.set_sleeping awakeCountingBody false ≠ awakeCountingBody := by
  decide

/-- C8 (amended): `set_sleeping(body, true)` twice equals once;
`set_sleeping(body, false)` wakes the body; on an already awake body
`set_sleeping(body, false)` changes nothing except the sleep counter, which
it resets to 0 (so it is a strict no-op only when the counter is already 0). -/
theorem set_sleeping_laws :
    (∀ b : ZBody, Sleeping.set_sleeping (Sleeping.set_sleeping b true) true =
      Sleeping.set_sleeping b true) ∧
    (∀ b : ZBody, (Sleeping.set_sleeping b false).isSleeping = false) ∧
    (∀ b : ZBody, b.isSleeping = false →
      Sleeping.set_sleeping b false = { b with sleepCounter := 0 }) := by
  refine ⟨fun b => ?_, fun b => ?_, fun b hb => ?_⟩
  · simp [Sleeping.set_sleeping]
  · simp [Sleeping.set_sleeping]
  · cases b
    simp_all [Sleeping.set_sleeping]

/-- Witness for `set_sleeping_laws` at concrete bodies. -/
theorem set_sleeping_laws_witness :
    Sleeping.set_sleeping awakeIdleBody false = { awakeIdleBody with sleepCounter := 0 } :=
  set_sleeping_laws.2.2 awakeIdleBody rfl

/-- C9: `post_solve_position` never changes any body's Verlet velocity: the
difference position - position_prev of every body is the same before and
after, because position_prev is shifted by exactly the accumulated position
impulse that is applied to position, vertices and bounds. -/
theorem post_solve_position_preserves_velocity (bodies : List QBody) :
    (Resolver.post_solve_position bodies).map
        (fun b => (b.position.x - b.positionPrev.x, b.position.y - b.positionPrev.y)) =
      bodies.map
        (fun b => (b.position.x - b.positionPrev.x, b.position.y - b.positionPrev.y)) := by
  simp only [Resolver.post_solve_position, List.map_map]
  refine List.map_congr_left (fun b _ => ?_)
  simp only [Function.comp_apply, Resolver.postSolvePositionBody]
  split
  · split <;> · simp only [Prod.mk.injEq]; constructor <;> ring
  · rfl

/-- `upsert` preserves the axes-dict invariant when the inserted value has
the inserted key. -/
theorem keyInv_upsert {m : List (SlopeKey × Vec)} {k : SlopeKey} {v : Vec}
    (h : KeyInv m) (hk : k = gradientKey v) : KeyInv (upsert m k v) := by
  obtain ⟨h1, h2⟩ := h
  unfold upsert
  split
  · constructor
    · intro kv hkv
      obtain ⟨kw, hkw, hmap⟩ := List.mem_map.1 hkv
      by_cases heq : kw.1 = k
      · rw [if_pos heq] at hmap
        rw [← hmap]
        exact hk
      · rw [if_neg heq] at hmap
        rw [← hmap]
        exact h1 kw hkw
    · refine h2.map _ (fun a b hab => ?_)
      by_cases ha : a.1 = k <;> by_cases hb : b.1 = k <;>
        simp [ha, hb] at hab ⊢ <;> simp_all
  · rename_i hany
    constructor
    · intro kv hkv
      rcases List.mem_append.1 hkv with hkv | hkv
      · exact h1 kv hkv
      · rw [List.mem_singleton] at hkv
        rw [hkv]
        exact hk
    · rw [List.pairwise_append]
      refine ⟨h2, List.pairwise_singleton _ _, fun a ha b hb => ?_⟩
      rw [List.mem_singleton] at hb
      subst hb
      intro hcontra
      apply hany
      rw [List.any_eq_true]
      exact ⟨a, ha, by simp [hcontra]⟩

/-- The axes-dict fold of `Axes.from_vertices` preserves `KeyInv`. -/
theorem keyInv_foldl (pairs : List (Vec × Vec)) (m : List (SlopeKey × Vec)) (h : KeyInv m) :
    KeyInv (pairs.foldl (fun m vw =>
      let normal := Vector.normalise ⟨vw.2.y - vw.1.y, vw.1.x - vw.2.x⟩
      upsert m (gradientKey normal) normal) m) := by
  induction pairs generalizing m with
  | nil => exact h
  | cons vw rest ih =>
    exact ih _ (keyInv_upsert h rfl)

/-- Any two distinct axes returned by `Axes.from_vertices` have distinct
slope keys. -/
theorem from_vertices_keys_distinct (vs : List Vec) :
    ∀ a ∈ Axes.from_vertices vs, ∀ b ∈ Axes.from_vertices vs, a ≠ b →
      gradientKey a ≠ gradientKey b := by
  intro a ha b hb hab
  have hinv := keyInv_foldl (edgePairs vs) [] ⟨by simp, List.Pairwise.nil⟩
  unfold Axes.from_vertices at ha hb
  obtain ⟨kva, hkva, hva⟩ := List.mem_map.1 ha
  obtain ⟨kvb, hkvb, hvb⟩ := List.mem_map.1 hb
  have hka := hinv.1 kva hkva
  have hkb := hinv.1 kvb hkvb
  have hne : kva ≠ kvb := fun hcontra => hab (by rw [← hva, ← hvb, hcontra])
  have hsymm : Symmetric (fun a b : SlopeKey × Vec => a.1 ≠ b.1) :=
    fun x y hxy => fun hcontra => hxy hcontra.symm
  have := hinv.2.forall hsymm hkva hkvb hne
  rw [hva] at hka
  rw [hvb] at hkb
  rw [← hka, ← hkb]
  exact this

set_option maxRecDepth 100000 in
unseal Rat.add Rat.mul Rat.inv Rat.sub in
/-- C5 counterexample: the default 40 by 40 rectangle yields three axes, not
two, and two of them, the vertical normals of the two horizontal edges, are
parallel and both returned. -/
theorem axes_rectangle_counterexample :
    (Axes.from_vertices squareVerts).length = 3 ∧
    (Vec.mk 0 (-1)) ∈ Axes.from_vertices squareVerts ∧
    (Vec.mk 0 1) ∈ Axes.from_vertices squareVerts ∧
    (Vec.mk 0 (-1)).x * (Vec.mk 0 1).y - (Vec.mk 0 (-1)).y * (Vec.mk 0 1).x = 0 := by
  decide

set_option maxRecDepth 100000 in
unseal Rat.add Rat.mul Rat.inv Rat.sub in
/-- C5 (amended): `Axes.from_vertices` buckets normals by slope key, so any
two distinct returned axes have distinct keys; distinct finite keys mean the
axes are not parallel, so no two non-vertical returned axes are parallel.
Vertical normals of opposite sign, however, receive the distinct keys plus
and minus infinity and are both kept: a rectangle yields exactly the three
axes below, two of which are parallel. -/
theorem axes_slope_dedup :
    (∀ vs : List Vec, ∀ a ∈ Axes.from_vertices vs, ∀ b ∈ Axes.from_vertices vs,
      a ≠ b → a.x ≠ 0 → b.x ≠ 0 → a.x * b.y - a.y * b.x ≠ 0) ∧
    Axes.from_vertices squareVerts = [⟨0, -1⟩, ⟨-1, 0⟩, ⟨0, 1⟩] := by
  constructor
  · intro vs a ha b hb hab hax hbx hpar
    apply from_vertices_keys_distinct vs a ha b hb hab
    simp only [gradientKey, if_neg hax, if_neg hbx]
    have h : a.y * b.x = b.y * a.x := by linear_combination -hpar
    exact congrArg SlopeKey.finite ((div_eq_div_iff hax hbx).2 h)
  · decide

set_option maxRecDepth 100000 in
unseal Rat.add Rat.mul Rat.inv Rat.sub in
/-- Witness for `axes_slope_dedup` at the 3-4-5 triangle: its two
non-vertical axes are not parallel. -/
theorem axes_slope_dedup_witness :
    (Vec.mk (3 / 5) (4 / 5)).x * (Vec.mk (-1) 0).y -
      (Vec.mk (3 / 5) (4 / 5)).y * (Vec.mk (-1) 0).x ≠ 0 :=
  axes_slope_dedup.1 triVerts ⟨3 / 5, 4 / 5⟩ (by decide) ⟨-1, 0⟩ (by decide) (by decide)
    (by norm_num) (by norm_num)

/-- The shoelace sum of fewer than three vertices is zero. -/
theorem areaSum_short {vs : List Vec} (h : vs.length < 3) : Vertices.areaSum vs = 0 := by
  match vs with
  | [] => rfl
  | [a] =>
    have ha : Vertices.areaSum [a] = 0 + (a.x - a.x) * (a.y + a.y) := rfl
    rw [ha]; ring
  | [a, b] =>
    have hab : Vertices.areaSum [a, b] =
        0 + (b.x - a.x) * (b.y + a.y) + (a.x - b.x) * (a.y + b.y) := rfl
    rw [hab]; ring
  | a :: b :: c :: rest =>
    simp only [List.length_cons] at h
    omega

/-- When the shoelace sum is zero, `Vertices.centre` hits the unguarded
division by zero. -/
theorem centre_eq_none {vs : List Vec} (h : Vertices.areaSum vs = 0) :
    Vertices.centre vs = none := by
  simp [Vertices.centre, Vertices.area_signed, h]

set_option maxRecDepth 100000 in
unseal Rat.add Rat.mul Rat.inv Rat.sub in
/-- C3 counterexample: three collinear points have fewer area than any valid
polygon needs, yet `set_vertices` ends in an unguarded ZeroDivisionError,
not in the specific invalid-geometry error kind the specification names. -/
theorem set_vertices_no_error_kind :
    (degenerateTri.length < 3 ∨ Vertices.area degenerateTri = 0) ∧
    Body.set_vertices freshVBody degenerateTri ≠ ConstructResult.invalidGeometry ∧
    Body.set_vertices freshVBody degenerateTri = ConstructResult.uncaughtException := by
  decide

/-- C3 (amended): for every vertex input with fewer than three vertices or
zero polygon area, `set_vertices` (hence body construction through
`Body.create`) raises an unguarded ZeroDivisionError from `Vertices.centre`
rather than failing with a specific invalid-geometry error kind. -/
theorem set_vertices_degenerate_uncaught (body : VBody) (points : List Vec)
    (h : points.length < 3 ∨ Vertices.area points = 0) :
    Body.set_vertices body points = ConstructResult.uncaughtException := by
  have hsum : Vertices.areaSum points = 0 := by
    rcases h with h | h
    · exact areaSum_short h
    · have := h
      rw [Vertices.area, div_eq_zero_iff] at this
      rcases this with h2 | h2
      · exact abs_eq_zero.1 h2
      · exact absurd h2 (by norm_num)
  simp [Body.set_vertices, Body.set_mass, centre_eq_none hsum]

set_option maxRecDepth 100000 in
unseal Rat.add Rat.mul Rat.inv Rat.sub in
/-- Witness for `set_vertices_degenerate_uncaught` at the collinear input. -/
theorem set_vertices_degenerate_uncaught_witness :
    Body.set_vertices freshVBody degenerateTri = ConstructResult.uncaughtException :=
  set_vertices_degenerate_uncaught freshVBody degenerateTri (by decide)

/-- The axis tracked by the `_overlap_axes` loop is the seed axis or one of
the listed axes. -/
theorem overlapAxesGo_axis_mem (vertsA vertsB : List Vec) (axes : List Vec)
    (best : ℚ) (bestAxis : Vec) :
    (overlapAxesGo vertsA vertsB axes best bestAxis).axis = bestAxis ∨
      (overlapAxesGo vertsA vertsB axes best bestAxis).axis ∈ axes := by
  induction axes generalizing best bestAxis with
  | nil => left; rfl
  | cons ax rest ih =>
    simp only [overlapAxesGo]
    split
    · split
      · right; exact List.mem_cons_self ax rest
      · rcases ih _ _ with h | h
        · right; rw [h]; exact List.mem_cons_self ax rest
        · right; exact List.mem_cons_of_mem ax h
    · rcases ih best bestAxis with h | h
      · left; exact h
      · right; exact List.mem_cons_of_mem ax h

/-- The axis reported by `_overlap_axes` is one of the given axes whenever
there is at least one axis. -/
theorem overlapAxes_axis_mem (vertsA vertsB : List Vec) (axes : List Vec)
    (h : axes ≠ []) : (overlapAxes vertsA vertsB axes).axis ∈ axes := by
  match axes with
  | [] => exact absurd rfl h
  | ax :: rest =>
    simp only [overlapAxes]
    split
    · exact List.mem_cons_self ax rest
    · rcases overlapAxesGo_axis_mem vertsA vertsB rest _ ax with h2 | h2
      · rw [h2]; exact List.mem_cons_self ax rest
      · exact List.mem_cons_of_mem ax h2

/-- C1 (amended): every collision record returned by `Collision.collides`
has a unit normal (given that both bodies carry unit axes, as
`Axes.from_vertices` produces), the tangent is the normal rotated 90
degrees, and the normal points from body_b toward body_a: its dot product
with (body_b.position - body_a.position) is non-positive (the code flips
the axis exactly when that dot product is non-negative). -/
theorem collides_normal_properties (bodyA bodyB : CBody) (col : Collision)
    (hcol : Collision.collides bodyA bodyB = some col)
    (hA : ∀ ax ∈ bodyA.axes, ax.x ^ 2 + ax.y ^ 2 = 1)
    (hB : ∀ ax ∈ bodyB.axes, ax.x ^ 2 + ax.y ^ 2 = 1) :
    col.normal.x ^ 2 + col.normal.y ^ 2 = 1 ∧
    col.tangent = ⟨-col.normal.y, col.normal.x⟩ ∧
    col.normal.x * (col.bodyB.position.x - col.bodyA.position.x) +
      col.normal.y * (col.bodyB.position.y - col.bodyA.position.y) ≤ 0 := by
  simp only [Collision.collides] at hcol
  split at hcol
  · exact absurd hcol (by simp)
  split at hcol
  · exact absurd hcol (by simp)
  rename_i h1 h2
  rw [Option.some_inj] at hcol
  subst hcol
  have hAne : bodyA.axes ≠ [] := by
    intro hnil
    rw [hnil] at h1
    simp [overlapAxes] at h1
  have hBne : bodyB.axes ≠ [] := by
    intro hnil
    rw [hnil] at h2
    simp [overlapAxes] at h2
  set oab := overlapAxes bodyA.vertices bodyB.vertices bodyA.axes with hoab
  set oba := overlapAxes bodyB.vertices bodyA.vertices bodyB.axes with hoba
  set mo := if oab.overlap < oba.overlap then oab else oba with hmo
  have haxis : mo.axis.x ^ 2 + mo.axis.y ^ 2 = 1 := by
    rw [hmo]
    split
    · exact hA _ (overlapAxes_axis_mem bodyA.vertices bodyB.vertices bodyA.axes hAne)
    · exact hB _ (overlapAxes_axis_mem bodyB.vertices bodyA.vertices bodyB.axes hBne)
  set bA := if bodyA.id < bodyB.id then bodyA else bodyB with hbA
  set bB := if bodyA.id < bodyB.id then bodyB else bodyA with hbB
  refine ⟨?_, ?_, ?_⟩
  · split
    · show (-mo.axis.x) ^ 2 + (-mo.axis.y) ^ 2 = 1
      linear_combination haxis
    · exact haxis
  · rfl
  · split
    · rename_i hd
      show -mo.axis.x * (bB.position.x - bA.position.x) +
        -mo.axis.y * (bB.position.y - bA.position.y) ≤ 0
      linarith [hd]
    · rename_i hd
      push_neg at hd
      show mo.axis.x * (bB.position.x - bA.position.x) +
        mo.axis.y * (bB.position.y - bA.position.y) ≤ 0
      linarith [hd]

set_option maxRecDepth 1000000 in
unseal Rat.add Rat.mul Rat.inv Rat.sub in
/-- C1 counterexample: for the two overlapping squares, `collides` returns a
normal whose dot product with (body_b.position - body_a.position) is minus
thirty, strictly negative: the normal points toward body_a, not away from
it. -/
theorem collides_normal_counterexample :
    Collision.collides sqBodyA sqBodyB = some collisionAB ∧
    collisionAB.normal.x * (collisionAB.bodyB.position.x - collisionAB.bodyA.position.x) +
      collisionAB.normal.y * (collisionAB.bodyB.position.y - collisionAB.bodyA.position.y) < 0 := by
  constructor
  · decide
  · decide

set_option maxRecDepth 1000000 in
unseal Rat.add Rat.mul Rat.inv Rat.sub in
/-- Witness for `collides_normal_properties` at the two overlapping
squares. -/
theorem collides_normal_properties_witness :
    collisionAB.normal.x ^ 2 + collisionAB.normal.y ^ 2 = 1 ∧
    collisionAB.tangent = ⟨-collisionAB.normal.y, collisionAB.normal.x⟩ ∧
    collisionAB.normal.x * (collisionAB.bodyB.position.x - collisionAB.bodyA.position.x) +
      collisionAB.normal.y * (collisionAB.bodyB.position.y - collisionAB.bodyA.position.y) ≤ 0 :=
  collides_normal_properties sqBodyA sqBodyB collisionAB (by decide) (by decide) (by decide)

/-- Every pair updated by `updatePairFields` has the stamped fields. -/
theorem updatePairFields_fields (p : Pair) (c : Collision) (ts : ℚ) :
    (Pairs.updatePairFields p c ts).confirmed = true ∧
    (Pairs.updatePairFields p c ts).isActive = true ∧
    (Pairs.updatePairFields p c ts).timeCreated = ts ∧
    (Pairs.updatePairFields p c ts).contactCount = c.supportCount := by
  unfold Pairs.updatePairFields
  split_ifs <;> exact ⟨rfl, rfl, rfl, rfl⟩

/-- The per-collision loop body of `Pairs.update` preserves the invariant
that every confirmed pair satisfies `P`, provided `P` holds of updated and
newly created pairs. -/
theorem pairs_foldl_confirmed (ts : ℚ) (P : Pair → Prop) :
    ∀ (collisions : List Collision) (st : PairsState),
      (∀ p c, c ∈ collisions → P (Pairs.updatePairFields p c ts)) →
      (∀ c ∈ collisions, P (Pairs.createPair c ts)) →
      (∀ p ∈ st.list, p.confirmed = true → P p) →
      ∀ p ∈ (collisions.foldl (Pairs.processCollision ts) st).list,
        p.confirmed = true → P p := by
  intro collisions
  induction collisions with
  | nil => exact fun st _ _ hst => hst
  | cons c rest ih =>
    intro st hupd hnew hst
    rw [List.foldl_cons]
    apply ih
    · exact fun p c2 hc2 => hupd p c2 (List.mem_cons_of_mem c hc2)
    · exact fun c2 hc2 => hnew c2 (List.mem_cons_of_mem c hc2)
    · intro p hp hconf
      simp only [Pairs.processCollision] at hp
      rcases hfind : st.list.find?
          (fun q => decide (q.pairId = Pairs.id_from_bodies c.parentA c.parentB)) with _ | pair
      · rw [hfind] at hp
        simp only at hp
        rcases List.mem_append.1 hp with hp2 | hp2
        · exact hst p hp2 hconf
        · rw [List.mem_singleton] at hp2
          subst hp2
          exact hnew c (List.mem_cons_self c rest)
      · rw [hfind] at hp
        simp only [apply_ite PairsState.list, ite_self] at hp
        obtain ⟨q, hq, hmap⟩ := List.mem_map.1 hp
        by_cases hpid : q.pairId = Pairs.id_from_bodies c.parentA c.parentB
        · rw [if_pos hpid] at hmap
          subst hmap
          exact hupd q c (List.mem_cons_self c rest)
        · rw [if_neg hpid] at hmap
          subst hmap
          exact hst q hq hconf

/-- After `Pairs.update`, every active pair in the cache satisfies any
property that holds of updated and newly created pairs. -/
theorem pairs_update_active_inv (P : Pair → Prop) (ts : ℚ) (collisions : List Collision)
    (hupd : ∀ p c, c ∈ collisions → P (Pairs.updatePairFields p c ts))
    (hnew : ∀ c ∈ collisions, P (Pairs.createPair c ts)) (st : PairsState) :
    ∀ p ∈ (Pairs.update st collisions ts).list, p.isActive = true → P p := by
  intro p hp hact
  simp only [Pairs.update] at hp
  rw [List.mem_filter] at hp
  obtain ⟨hp, _⟩ := hp
  obtain ⟨q, hq, hmap⟩ := List.mem_map.1 hp
  by_cases hconf : q.confirmed
  · rw [if_pos hconf] at hmap
    subst hmap
    refine pairs_foldl_confirmed ts P collisions _ hupd hnew ?_ q hq hconf
    intro r hr hrconf
    obtain ⟨r0, _, hmap0⟩ := List.mem_map.1 hr
    rw [← hmap0] at hrconf
    simp at hrconf
  · rw [if_neg hconf] at hmap
    subst hmap
    simp [Pairs.deactivatePair] at hact

/-- The support-selection of `collides` always reports one or two supports:
the two containment passes add at most two, and the fallback turns zero into
one. -/
theorem findCollisionSupports_count (bodyA bodyB : CBody) (normal : Vec) :
    (findCollisionSupports bodyA bodyB normal).2 = 1 ∨
      (findCollisionSupports bodyA bodyB normal).2 = 2 := by
  simp only [findCollisionSupports]
  split_ifs <;> simp_all

/-- C10: whenever `Pairs.update` processes a collision whose pair already
exists (active or being reactivated) it stamps `time_created` with the
current timestamp, and a created pair is stamped too; hence every pair that
is active after an update carries the timestamp of its most recent
detection, not of its first creation. -/
theorem pairs_update_time_created (st : PairsState) (collisions : List Collision) (ts : ℚ) :
    ∀ p ∈ (Pairs.update st collisions ts).list, p.isActive = true → p.timeCreated = ts := by
  apply pairs_update_active_inv (fun p => p.timeCreated = ts)
  · exact fun p c _ => (updatePairFields_fields p c ts).2.2.1
  · intro c _
    rfl

set_option maxRecDepth 1000000 in
unseal Rat.add Rat.mul Rat.inv Rat.sub in
/-- Witness for `pairs_update_time_created`: updating an empty cache with the
squares collision at timestamp 5 yields an active pair created at 5. -/
theorem pairs_update_time_created_witness :
    (Pairs.createPair collisionAB 5).timeCreated = 5 :=
  pairs_update_time_created emptyPairs [collisionAB] 5
    (Pairs.createPair collisionAB 5) (by decide) (by decide)

/-- C7: `Collision.collides` always reports a support count of 1 or 2 (the
containment-failure edge case falls back to one unconditional support), and
`Pairs.update` copies that count into `contact_count` on creation and on
every re-detection, so every active pair has `contact_count` 1 or 2. -/
theorem collides_support_count_invariant :
    (∀ bodyA bodyB col, Collision.collides bodyA bodyB = some col →
      col.supportCount = 1 ∨ col.supportCount = 2) ∧
    (∀ (st : PairsState) (collisions : List Collision) (ts : ℚ),
      (∀ c ∈ collisions, c.supportCount = 1 ∨ c.supportCount = 2) →
      ∀ p ∈ (Pairs.update st collisions ts).list, p.isActive = true →
        (p.contactCount = 1 ∨ p.contactCount = 2)) := by
  constructor
  · intro bodyA bodyB col hcol
    simp only [Collision.collides] at hcol
    split at hcol
    · exact absurd hcol (by simp)
    split at hcol
    · exact absurd hcol (by simp)
    rw [Option.some_inj] at hcol
    subst hcol
    exact findCollisionSupports_count _ _ _
  · intro st collisions ts hcount
    apply pairs_update_active_inv (fun p => p.contactCount = 1 ∨ p.contactCount = 2)
    · intro p c hc
      rw [(updatePairFields_fields p c ts).2.2.2]
      exact hcount c hc
    · intro c hc
      exact hcount c hc

set_option maxRecDepth 1000000 in
unseal Rat.add Rat.mul Rat.inv Rat.sub in
/-- Witness for `collides_support_count_invariant` at the squares collision
and a one-collision update of the empty cache. -/
theorem collides_support_count_invariant_witness :
    (collisionAB.supportCount = 1 ∨ collisionAB.supportCount = 2) ∧
    ((Pairs.createPair collisionAB 5).contactCount = 1 ∨
      (Pairs.createPair collisionAB 5).contactCount = 2) :=
  ⟨collides_support_count_invariant.1 sqBodyA sqBodyB collisionAB (by decide),
   collides_support_count_invariant.2 emptyPairs [collisionAB] 5 (by decide)
     (Pairs.createPair collisionAB 5) (by decide) (by decide)⟩

/-- The normal-axis cache update leaves the cached impulse non-positive in
both branches: the high-velocity branch resets it to 0 and the resting
branch clamps the accumulated value to at most 0. -/
theorem solveNormalImpulse_nonpos (restingThresh normalVelocity normalImpulseRaw : ℚ)
    (contact : Contact) :
    (Resolver.solveNormalImpulse restingThresh normalVelocity normalImpulseRaw
      contact).1.normalImpulse ≤ 0 := by
  unfold Resolver.solveNormalImpulse
  split
  · simp
  · show (if contact.normalImpulse + normalImpulseRaw > 0 then (0 : ℚ)
      else contact.normalImpulse + normalImpulseRaw) ≤ 0
    split
    · exact le_refl 0
    · exact le_of_not_lt (by assumption)

/-- The tangent-axis cache update does not touch the cached normal
impulse. -/
theorem solveTangentImpulse_preserves_normal (restingThreshTangent tangentVelocity
    tangentImpulseRaw : ℚ) (maxFriction : Pf) (contact : Contact) :
    (Resolver.solveTangentImpulse restingThreshTangent tangentVelocity tangentImpulseRaw
      maxFriction contact).1.normalImpulse = contact.normalImpulse := by
  unfold Resolver.solveTangentImpulse
  split_ifs <;> rfl

/-- A processed contact leaves the cache non-positive; a skipped contact
(no vertex) leaves it unchanged. -/
theorem solveContact_normal_nonpos (restingThresh restingThreshTangent timeScaleCubed
    frictionCoef contactShare : ℚ) (pair : RPair) (bodyA bodyB : RBody)
    (velAx velAy angVelA velBx velBy angVelB : ℚ) (contact : Contact)
    (h : contact.normalImpulse ≤ 0) :
    (Resolver.solveContact restingThresh restingThreshTangent timeScaleCubed frictionCoef
      contactShare pair bodyA bodyB velAx velAy angVelA velBx velBy angVelB
      contact).1.normalImpulse ≤ 0 := by
  rcases hcv : contact.vertex with _ | v
  · simpa [Resolver.solveContact, hcv] using h
  · simp only [Resolver.solveContact, hcv]
    rw [solveTangentImpulse_preserves_normal]
    exact solveNormalImpulse_nonpos _ _ _ _

/-- One pair pass of the velocity solver keeps both cached contact normal
impulses non-positive. -/
theorem solvePair_normal_nonpos (delta restingThreshTangent : ℚ) (bodies : List RBody)
    (pair : RPair) (h0 : pair.contact0.normalImpulse ≤ 0)
    (h1 : pair.contact1.normalImpulse ≤ 0) :
    (Resolver.solvePair delta restingThreshTangent bodies pair).1.contact0.normalImpulse ≤ 0 ∧
    (Resolver.solvePair delta restingThreshTangent bodies pair).1.contact1.normalImpulse ≤ 0 := by
  unfold Resolver.solvePair
  split
  · constructor
    · show (if 0 < min pair.contactCount 2 then _ else _ : Contact × RBody × RBody).1.normalImpulse ≤ 0
      split
      · exact solveContact_normal_nonpos _ _ _ _ _ _ _ _ _ _ _ _ _ _ _ h0
      · exact h0
    · show (if 1 < min pair.contactCount 2 then _ else _ : Contact × RBody × RBody).1.normalImpulse ≤ 0
      split
      · exact solveContact_normal_nonpos _ _ _ _ _ _ _ _ _ _ _ _ _ _ _ h1
      · exact h1
  · exact ⟨h0, h1⟩

/-- The pair loop of the velocity solver preserves non-positivity of every
cached contact normal impulse. -/
theorem solveVelocityGo_normal_nonpos (delta restingThreshTangent : ℚ) :
    ∀ (pairs : List RPair) (bodies : List RBody),
      (∀ p ∈ pairs, p.contact0.normalImpulse ≤ 0 ∧ p.contact1.normalImpulse ≤ 0) →
      ∀ p ∈ (Resolver.solveVelocityGo delta restingThreshTangent pairs bodies).1,
        p.contact0.normalImpulse ≤ 0 ∧ p.contact1.normalImpulse ≤ 0 := by
  intro pairs
  induction pairs with
  | nil =>
    intro bodies _ p hp
    simp [Resolver.solveVelocityGo] at hp
  | cons q rest ih =>
    intro bodies h p hp
    simp only [Resolver.solveVelocityGo] at hp
    rcases List.mem_cons.1 hp with hp2 | hp2
    · subst hp2
      have hq := h q (List.mem_cons_self q rest)
      exact solvePair_normal_nonpos delta restingThreshTangent bodies q hq.1 hq.2
    · exact ih _ (fun r hr => h r (List.mem_cons_of_mem q hr)) p hp2

/-- C6: after any single call of `Resolver.solve_velocity`, every cached
contact normal impulse of every pair is at most 0 (contacts push, never
pull), given that it was so before the call: processed contacts are reset to
0 by the high-velocity branch or accumulated and clamped to at most 0 by the
resting branch, and skipped contacts are unchanged. -/
theorem solve_velocity_no_pull (st : RState) (delta restingThreshTangent : ℚ)
    (h : ∀ p ∈ st.pairs, p.contact0.normalImpulse ≤ 0 ∧ p.contact1.normalImpulse ≤ 0) :
    ∀ p ∈ (Resolver.solve_velocity st delta restingThreshTangent).pairs,
      p.contact0.normalImpulse ≤ 0 ∧ p.contact1.normalImpulse ≤ 0 :=
  solveVelocityGo_normal_nonpos delta restingThreshTangent st.pairs st.bodies h

set_option maxRecDepth 1000000 in
unseal Rat.add Rat.mul Rat.inv Rat.sub in
/-- Witness for `solve_velocity_no_pull` at a concrete two-contact state. -/
theorem solve_velocity_no_pull_witness :
    ((Resolver.solve_velocity sampleRState (1000 / 60) 3).pairs.headD
      sampleRPair).contact0.normalImpulse ≤ 0 ∧
    ((Resolver.solve_velocity sampleRState (1000 / 60) 3).pairs.headD
      sampleRPair).contact1.normalImpulse ≤ 0 :=
  solve_velocity_no_pull sampleRState (1000 / 60) 3 (by decide) _ (by decide)
